import Mathlib

/-!
Verification of the MRZ passport-OCR core (`passport_ocr.py`): a shallow
embedding of the check-digit algorithm, date parsing, TD3 parsing, line
selection, the record validator, the orchestrator's result shaping, and the
post-contour part of the region locator, together with theorems settling the
spec's claims about them.

Python strings are modelled as Lean `String`/`List Char`; the inputs involved
are ASCII, where Python's `isdigit`/`isalpha`/`isalnum`/`upper` agree with
Lean's `Char.isDigit`/`Char.isAlpha`/`Char.toUpper`.  Python integers are
`Nat` (all quantities here are non-negative and overflow-free).
-/

namespace PassportOCR

/-- Python `str.isdigit`: true iff the string is non-empty and all characters
are digits (ASCII model). -/
def pyStrIsDigit (s : String) : Bool :=
  !s.toList.isEmpty && s.toList.all Char.isDigit

/-- Python `int(s)` for an all-digit string. -/
def pyInt (s : String) : Nat :=
  s.toList.foldl (fun a c => 10 * a + (c.toNat - '0'.toNat)) 0

/-- The weight list `[7, 3, 1]` of `MRZParser.calculate_check_digit`
(`passport_ocr.py` line 197). -/
def mrzWeights : List Nat := [7, 3, 1]

/-- Per-character value of `MRZParser.calculate_check_digit`
(`passport_ocr.py` lines 200-209): 0 for the filler, the digit's value for a
digit, `ord(c) - ord('A') + 10` for a letter, and 0 otherwise. -/
def checkDigitValue (c : Char) : Nat :=
  if c = '<' then 0
  else if c.isDigit then c.toNat - '0'.toNat
  else if c.isAlpha then c.toNat - 'A'.toNat + 10
  else 0

/-- `MRZParser.calculate_check_digit` (`passport_ocr.py` lines 185-213):
weighted sum of character values with weights `[7,3,1]` cycling by position,
taken mod 10. -/
def calculate_check_digit (data : String) : Nat :=
  (data.toList.enum.foldl
    (fun total ic => total + checkDigitValue ic.2 * mrzWeights.getD (ic.1 % 3) 0) 0) % 10

/-- `MRZParser.verify_check_digit` (`passport_ocr.py` lines 215-223): the
expected digit must equal `int(check_digit)`, with -1 substituted when the
check string is not all digits (so the comparison is over `Int`). -/
def verify_check_digit (data check : String) : Bool :=
  let expected : Int := calculate_check_digit data
  let actual : Int := if pyStrIsDigit check then (pyInt check : Int) else -1
  expected == actual

/-- The MRZ alphabet of the spec's checksum claim: `A`-`Z`, `0`-`9` and the
filler marker. -/
def mrzAlphabet : List Char :=
  ['A', 'B', 'C', 'D', 'E', 'F', 'G', 'H', 'I', 'J', 'K', 'L', 'M',
   'N', 'O', 'P', 'Q', 'R', 'S', 'T', 'U', 'V', 'W', 'X', 'Y', 'Z',
   '0', '1', '2', '3', '4', '5', '6', '7', '8', '9', '<']

/-- The spec's character value (ICAO 9303): 0 for the filler, a digit's own
value, and 10 plus alphabetic rank for a letter. -/
def specCharValue (c : Char) : Nat :=
  if c = '<' then 0
  else if c.isDigit then c.toNat - '0'.toNat
  else 10 + (c.toNat - 'A'.toNat)

/-- The spec's checksum formula: the sum over positions of value times
weight(i mod 3), taken mod 10, written as a sum of a mapped list. -/
def specChecksum (s : String) : Nat :=
  ((s.toList.enum.map (fun ic => specCharValue ic.2 * mrzWeights.getD (ic.1 % 3) 0)).sum) % 10

/-- Gregorian leap-year rule, as used by Python's `datetime`. -/
def isLeapYear (y : Nat) : Bool :=
  y % 4 == 0 && (y % 100 != 0 || y % 400 == 0)

/-- Days in a month of the (proleptic) Gregorian calendar, as enforced by
Python's `datetime` constructor. -/
def daysInMonth (y m : Nat) : Nat :=
  if m = 2 then (if isLeapYear y then 29 else 28)
  else if m = 4 ∨ m = 6 ∨ m = 9 ∨ m = 11 then 30
  else 31

/-- Calendar validity of `(y, m, d)`: exactly the triples on which
`datetime(year, mm, dd)` does not raise (years here are always 1900-2049,
inside datetime's year range). -/
def validDate (y m d : Nat) : Bool :=
  1 ≤ m && m ≤ 12 && 1 ≤ d && d ≤ daysInMonth y m

/-- Python `f"{n:02d}"` for the month/day values arising here. -/
def pad2 (n : Nat) : String :=
  if n < 10 then "0" ++ toString n else toString n

/-- Python `f"{n:04d}"`; the years arising here are 1900-2049, hence always
four digits already. -/
def pad4 (n : Nat) : String := toString n

/-- The two-digit year of a YYMMDD string with the code's century rule
(`passport_ocr.py` line 245): 2000+YY when YY is below 50, 1900+YY
otherwise. -/
def mrzCentury (s : String) : Nat :=
  let yy := pyInt (String.mk (s.toList.take 2))
  if yy < 50 then 2000 + yy else 1900 + yy

/-- The month digits of a YYMMDD string. -/
def mrzMonth (s : String) : Nat := pyInt (String.mk ((s.toList.drop 2).take 2))

/-- The day digits of a YYMMDD string. -/
def mrzDay (s : String) : Nat := pyInt (String.mk (s.toList.drop 4))

/-- `MRZParser.parse_date` (`passport_ocr.py` lines 226-252): requires a
6-character all-digit string, infers the century (2000+YY if YY<50 else
1900+YY), checks calendar validity via `datetime`, and formats the result as
`YYYY-MM-DD`; returns `none` on any failure. -/
def parse_date (s : String) : Option String :=
  if s.length ≠ 6 ∨ ¬ pyStrIsDigit s then none
  else
    let year := mrzCentury s
    let mm := mrzMonth s
    let dd := mrzDay s
    if validDate year mm dd then some (pad4 year ++ "-" ++ pad2 mm ++ "-" ++ pad2 dd)
    else none

/-- Python `str.strip()` (default whitespace strip) on a character list.
Python also strips `\v`/`\f`, which never occur in the inputs here. -/
def pyStripL (l : List Char) : List Char :=
  ((l.dropWhile Char.isWhitespace).reverse.dropWhile Char.isWhitespace).reverse

/-- Python `str.rstrip(chars)`: drop trailing characters satisfying `p`. -/
def listRStrip (p : Char → Bool) (l : List Char) : List Char :=
  (l.reverse.dropWhile p).reverse

/-- The characters stripped by `rstrip('KX')`. -/
def isKX (c : Char) : Bool := c == 'K' || c == 'X'

/-- Python `line.ljust(44, '<')[:44]`: pad with fillers to 44 characters,
then truncate to 44. -/
def ljustTrunc44 (l : List Char) : List Char :=
  (l ++ List.replicate (44 - l.length) '<').take 44

/-- Python slice `l[a:b]` for `a ≤ b`. -/
def sliceL (a b : Nat) (l : List Char) : List Char := (l.drop a).take (b - a)

/-- Python `.replace('<', '')`. -/
def stripFiller (l : List Char) : List Char := l.filter (fun c => c ≠ '<')

/-- Python `.replace('<', ' ')`. -/
def fillerToSpace (l : List Char) : List Char :=
  l.map (fun c => if c = '<' then ' ' else c)

/-- Python `names.split('<<')`: split on non-overlapping occurrences of the
double filler, scanning left to right. -/
def splitOnDoubleFiller : List Char → List (List Char)
  | [] => [[]]
  | '<' :: '<' :: rest => [] :: splitOnDoubleFiller rest
  | c :: rest =>
    match splitOnDoubleFiller rest with
    | h :: t => (c :: h) :: t
    | [] => [[c]]

/-- The country-code OCR correction of `parse_td3_mrz` (`passport_ocr.py`
lines 294-297 and 314-317): in a 3-character code, a leading digit `1` and
then a trailing digit `1` are each corrected to the letter `I`
(`startswith`/`endswith` on the single character `1`). -/
def fixCountry (l : List Char) : List Char :=
  let a := if l.head? = some '1' ∧ l.length = 3 then 'I' :: l.drop 1 else l
  if a.getLast? = some '1' ∧ a.length = 3 then a.dropLast ++ ['I'] else a

/-- The `check_digits` map of a parsed TD3 record (`passport_ocr.py` lines
337-347), in the dictionary's insertion order. -/
structure CheckDigits where
  passportNumber : Bool
  dateOfBirth : Bool
  dateOfExpiry : Bool
  personalNumber : Bool
  composite : Bool
deriving Repr, DecidableEq

/-- The dictionary returned by `MRZParser.parse_td3_mrz` (`passport_ocr.py`
lines 349-362). -/
structure ParsedData where
  documentType : Char
  issuingCountry : String
  surname : String
  givenNames : String
  passportNumber : String
  nationality : String
  dateOfBirth : Option String
  sex : Char
  dateOfExpiry : Option String
  personalNumber : String
  checkDigits : CheckDigits
  validMrzChecksum : Bool
deriving Repr, DecidableEq

/-- `MRZParser.parse_td3_mrz` (`passport_ocr.py` lines 254-366): strips the
first two lines, rejects lines shorter than 35 characters, removes trailing
`K`/`X` OCR artifacts, pads/truncates to exactly 44 columns, and extracts the
fixed-width TD3 fields with their check-digit verifications.  The `try` block
cannot raise once the lines are padded to 44 columns (all indexing is in
range), so the `except` branch is dead and not modelled. -/
def parse_td3_mrz (mrzLines : List String) : Option ParsedData :=
  match mrzLines with
  | l1s :: l2s :: _ =>
    let line1 := pyStripL l1s.toList
    let line2 := pyStripL l2s.toList
    if line1.length < 35 ∨ line2.length < 35 then none
    else
      let c1 := ljustTrunc44 (listRStrip isKX line1)
      let c2 := ljustTrunc44 (listRStrip isKX line2)
      let names := listRStrip (fun c => c == '<') (c1.drop 5)
      let nameParts := splitOnDoubleFiller names
      let surname := String.mk (pyStripL (fillerToSpace (nameParts.getD 0 [])))
      let givenNames :=
        if nameParts.length > 1 then String.mk (pyStripL (fillerToSpace (nameParts.getD 1 [])))
        else ""
      let passportNumber := String.mk (stripFiller (sliceL 0 9 c2))
      let dob := String.mk (sliceL 13 19 c2)
      let sexChar := c2.getD 20 '<'
      let expiry := String.mk (sliceL 21 27 c2)
      let personalNumber := String.mk (stripFiller (sliceL 28 42 c2))
      let ckPassport := verify_check_digit (String.mk (sliceL 0 9 c2)) (String.mk [c2.getD 9 '<'])
      let ckDob := verify_check_digit dob (String.mk [c2.getD 19 '<'])
      let ckExpiry := verify_check_digit expiry (String.mk [c2.getD 27 '<'])
      let ckPersonal :=
        if personalNumber ≠ "" then
          verify_check_digit (String.mk (sliceL 28 42 c2)) (String.mk [c2.getD 42 '<'])
        else true
      let ckComposite :=
        verify_check_digit (String.mk (sliceL 0 10 c2 ++ sliceL 13 20 c2 ++ sliceL 21 43 c2))
          (String.mk [c2.getD 43 '<'])
      some {
        documentType := c1.getD 0 '<'
        issuingCountry := String.mk (fixCountry (stripFiller (sliceL 2 5 c1)))
        surname := surname
        givenNames := givenNames
        passportNumber := passportNumber
        nationality := String.mk (fixCountry (stripFiller (sliceL 10 13 c2)))
        dateOfBirth := parse_date dob
        sex := if sexChar = 'M' ∨ sexChar = 'F' ∨ sexChar = 'X' then sexChar else 'X'
        dateOfExpiry := parse_date expiry
        personalNumber := personalNumber
        checkDigits := {
          passportNumber := ckPassport
          dateOfBirth := ckDob
          dateOfExpiry := ckExpiry
          personalNumber := ckPersonal
          composite := ckComposite }
        validMrzChecksum := ckPassport && ckDob && ckExpiry && ckPersonal && ckComposite }
  | _ => none

/-- One pass of the cleanup loop of `MRZParser.parse_mrz` (`passport_ocr.py`
lines 383-396): strip, remove spaces, map dash-like characters to the filler,
and strip trailing `K`/`X` when the line is shorter than 44 characters. -/
def normalizeLine (l : List Char) : List Char :=
  let a := (pyStripL l).filter (fun c => c ≠ ' ')
  let b := a.map (fun c => if c = '—' then '<' else if c = '-' then '<' else c)
  if (b.getLast? = some 'K' ∨ b.getLast? = some 'X') ∧ b.length < 44 then
    listRStrip isKX b
  else b

/-- The cleanup stage of `MRZParser.parse_mrz` (`passport_ocr.py` lines
378-396): strip the text, split on newlines, drop blank lines, and normalize
each remaining line. -/
def cleanMRZLines (text : String) : List String :=
  (List.splitOn '\n' (pyStripL text.toList)).filterMap
    (fun l => if pyStripL l = [] then none else some (String.mk (normalizeLine l)))

/-- Python `c.isalnum()` (ASCII model). -/
def pyIsAlnum (c : Char) : Bool := c.isAlpha || c.isDigit

/-- `valid_chars` of `parse_mrz` (`passport_ocr.py` line 406): the number of
characters that are alphanumeric or the filler. -/
def mrzValidCount (s : String) : Nat :=
  s.toList.countP (fun c => pyIsAlnum c || c == '<')

/-- `starts_with_doc_type` of `parse_mrz` (`passport_ocr.py` line 410): the
line is non-empty and its first character is one of `P`, `A`, `C`, `I`,
`V`. -/
def startsWithDocType (s : String) : Bool :=
  match s.toList with
  | c :: _ => c == 'P' || c == 'A' || c == 'C' || c == 'I' || c == 'V'
  | [] => false

/-- `line.count('<')`. -/
def fillerCount (s : String) : Nat := s.toList.countP (fun c => c == '<')

/-- The line-selection predicate of `MRZParser.parse_mrz` (`passport_ocr.py`
lines 399-419): skip lines containing a space; keep lines of 35-50 characters
whose share of alphanumeric-or-filler characters strictly exceeds 0.9, that
contain the filler, and that start with a document-type letter or contain at
least 5 fillers.  The float test `valid_chars / len(line) > 0.9` is
equivalent to the exact rational test `9·len < 10·valid_chars`: for
`len ≤ 50`, any ratio strictly above 9/10 exceeds it by at least 1/500,
far above double-rounding error, and a ratio of exactly 9/10 compares equal
to the literal `0.9`. -/
def isMRZLine (line : String) : Bool :=
  !(line.toList.contains ' ') &&
  (decide (35 ≤ line.length) && decide (line.length ≤ 50) &&
   decide (9 * line.length < 10 * mrzValidCount line) &&
   line.toList.contains '<') &&
  (startsWithDocType line || decide (5 ≤ fillerCount line))

/-- A Python `datetime` value for comparison purposes: a calendar date plus a
time-of-day component (`tod`, 0 meaning midnight; `datetime.now()` generally
has `tod > 0`, while `strptime(s, "%Y-%m-%d")` always yields `tod = 0`).
Comparison of valid datetimes is lexicographic on (year, month, day, time). -/
structure PyDateTime where
  year : Nat
  month : Nat
  day : Nat
  tod : Nat
deriving Repr, DecidableEq

/-- Python `datetime` strict order (lexicographic). -/
def dtLt (a b : PyDateTime) : Bool :=
  decide (a.year < b.year) ||
  (a.year == b.year &&
    (decide (a.month < b.month) ||
     (a.month == b.month &&
       (decide (a.day < b.day) || (a.day == b.day && decide (a.tod < b.tod))))))

/-- `datetime.strptime(s, "%Y-%m-%d")`, modelled on the zero-padded canonical
strings that `parse_date` emits (four year digits, two month digits, two day
digits, calendar-valid); `strptime` additionally tolerates unpadded fields,
which never occur here.  Returns the (year, month, day) triple. -/
def parseIsoDate (s : String) : Option (Nat × Nat × Nat) :=
  match s.toList with
  | [y1, y2, y3, y4, '-', m1, m2, '-', d1, d2] =>
    if y1.isDigit && y2.isDigit && y3.isDigit && y4.isDigit &&
       m1.isDigit && m2.isDigit && d1.isDigit && d2.isDigit then
      let y := pyInt (String.mk [y1, y2, y3, y4])
      let m := pyInt (String.mk [m1, m2])
      let d := pyInt (String.mk [d1, d2])
      if validDate y m d then some (y, m, d) else none
    else none
  | _ => none

/-- Python `str.upper()` (ASCII model). -/
def pyUpper (s : String) : String := String.mk (s.data.map Char.toUpper)

/-- `PassportValidator.VALID_DOCUMENT_TYPES` (`passport_ocr.py` line 457). -/
def validDocumentTypes : List Char := ['P', 'A', 'C', 'I', 'V']

/-- `PassportValidator.VALID_COUNTRY_CODES` (`passport_ocr.py` lines
434-455). -/
def validCountryCodes : List String :=
  ["AFG", "ALB", "DZA", "AND", "AGO", "ATG", "ARG", "ARM", "AUS", "AUT",
   "AZE", "BHS", "BHR", "BGD", "BRB", "BLR", "BEL", "BLZ", "BEN", "BTN",
   "BOL", "BIH", "BWA", "BRA", "BRN", "BGR", "BFA", "BDI", "KHM", "CMR",
   "CAN", "CPV", "CAF", "TCD", "CHL", "CHN", "COL", "COM", "COG", "CRI",
   "CIV", "HRV", "CUB", "CYP", "CZE", "PRK", "COD", "DNK", "DJI", "DMA",
   "DOM", "ECU", "EGY", "SLV", "GNQ", "ERI", "EST", "ETH", "FJI", "FIN",
   "FRA", "GAB", "GMB", "GEO", "DEU", "GHA", "GRC", "GRD", "GTM", "GIN",
   "GNB", "GUY", "HTI", "HND", "HUN", "ISL", "IND", "IDN", "IRN", "IRQ",
   "IRL", "ISR", "ITA", "JAM", "JPN", "JOR", "KAZ", "KEN", "KIR", "KWT",
   "KGZ", "LAO", "LVA", "LBN", "LSO", "LBR", "LBY", "LIE", "LTU", "LUX",
   "MKD", "MDG", "MWI", "MYS", "MDV", "MLI", "MLT", "MHL", "MRT", "MUS",
   "MEX", "FSM", "MCO", "MNG", "MNE", "MAR", "MOZ", "MMR", "NAM", "NRU",
   "NPL", "NLD", "NZL", "NIC", "NER", "NGA", "NOR", "OMN", "PAK", "PLW",
   "PAN", "PNG", "PRY", "PER", "PHL", "POL", "PRT", "QAT", "KOR", "MDA",
   "ROU", "RUS", "RWA", "KNA", "LCA", "VCT", "WSM", "SMR", "STP", "SAU",
   "SEN", "SRB", "SYC", "SLE", "SGP", "SVK", "SVN", "SLB", "SOM", "ZAF",
   "SSD", "ESP", "LKA", "SDN", "SUR", "SWZ", "SWE", "CHE", "SYR", "TJK",
   "THA", "TLS", "TGO", "TON", "TTO", "TUN", "TUR", "TKM", "TUV", "TWN",
   "UGA", "UKR", "ARE", "GBR", "TZA", "USA", "URY", "UZB", "VUT", "VEN",
   "VNM", "YEM", "ZMB", "ZWE", "D<<"]

/-- Document-type rule of `PassportValidator.validate_passport`
(`passport_ocr.py` lines 472-474). -/
def docTypeErrors (d : ParsedData) : List String :=
  if d.documentType ∈ validDocumentTypes then []
  else ["Invalid document type: " ++ String.mk [d.documentType]]

/-- Country-code rules (`passport_ocr.py` lines 476-484); a Python empty
string is falsy, so empty codes are skipped. -/
def countryErrors (d : ParsedData) : List String :=
  (if pyUpper d.issuingCountry ≠ "" ∧ pyUpper d.issuingCountry ∉ validCountryCodes then
    ["Invalid issuing country code: " ++ pyUpper d.issuingCountry] else []) ++
  (if pyUpper d.nationality ≠ "" ∧ pyUpper d.nationality ∉ validCountryCodes then
    ["Invalid nationality code: " ++ pyUpper d.nationality] else [])

/-- The ordered list of failing critical checks (`passport_ocr.py` lines
490-496), in the dictionary's insertion order. -/
def checksumFailedNames (cd : CheckDigits) : List String :=
  (if cd.passportNumber then [] else ["passport_number"]) ++
  (if cd.dateOfBirth then [] else ["date_of_birth"]) ++
  (if cd.dateOfExpiry then [] else ["date_of_expiry"])

/-- Critical-checksum rule (`passport_ocr.py` lines 486-504): one violation
naming the failing critical fields when any of the three fails; the
personal-number and composite results are read but deliberately produce no
error (the `pass` branch at lines 501-504). -/
def checksumErrors (cd : CheckDigits) : List String :=
  if checksumFailedNames cd ≠ [] then
    ["Critical MRZ checksum validation failed: " ++
      String.intercalate ", " (checksumFailedNames cd)]
  else []

/-- Date-of-birth rules (`passport_ocr.py` lines 509-521); `None` and the
empty string are both falsy in Python, hence the `getD ""` model of
`if dob_str:`. -/
def dobErrors (now : PyDateTime) (dob : Option String) : List String :=
  let dobStr := dob.getD ""
  if dobStr ≠ "" then
    match parseIsoDate dobStr with
    | none => ["Invalid date of birth format: " ++ dobStr]
    | some (y, m, dd) =>
      (if dtLt now ⟨y, m, dd, 0⟩ then ["Date of birth is in the future"] else []) ++
      (if dtLt ⟨y, m, dd, 0⟩ ⟨1900, 1, 1, 0⟩ then ["Date of birth is too far in the past"]
       else [])
  else ["Missing date of birth"]

/-- Expiry rules (`passport_ocr.py` lines 523-533): the parsed expiry (a
midnight datetime) is compared against `datetime.now()` (which carries the
current time of day). -/
def expiryErrors (now : PyDateTime) (expiryOpt : Option String) : List String :=
  let expStr := expiryOpt.getD ""
  if expStr ≠ "" then
    match parseIsoDate expStr with
    | none => ["Invalid expiry date format: " ++ expStr]
    | some (y, m, dd) => if dtLt ⟨y, m, dd, 0⟩ now then ["Passport has expired"] else []
  else ["Missing expiry date"]

/-- Required-field rules (`passport_ocr.py` lines 535-539). -/
def requiredErrors (d : ParsedData) : List String :=
  (if d.surname = "" then ["Missing required field: surname"] else []) ++
  (if d.passportNumber = "" then ["Missing required field: passport_number"] else [])

/-- `PassportValidator.validate_passport` (`passport_ocr.py` lines 459-542):
the rule blocks append their messages in program order, and the verdict is
`true` iff no message was appended.  `now` is the `datetime.now()` value read
at validation time. -/
def validate_passport (now : PyDateTime) (d : ParsedData) : Bool × List String :=
  let errors := docTypeErrors d ++ countryErrors d ++ checksumErrors d.checkDigits ++
    dobErrors now d.dateOfBirth ++ expiryErrors now d.dateOfExpiry ++ requiredErrors d
  (errors.isEmpty, errors)

/-- `MRZParser.parse_mrz` (`passport_ocr.py` lines 368-427): clean the raw
text, keep the qualifying MRZ lines, return `None` when none qualify, and
otherwise hand the kept lines to `parse_td3_mrz` (which itself returns `None`
when given fewer than two lines). -/
def parse_mrz (text : String) : Option ParsedData :=
  let mrzLines := (cleanMRZLines text).filter isMRZLine
  if mrzLines.isEmpty then none
  else parse_td3_mrz mrzLines

/-- Recognizer for the critical-checksum violation message: among all
messages `validate_passport` can append, exactly the critical-checksum one
begins with the letter `C`. -/
def isCriticalChecksumMsg (m : String) : Bool := decide (m.data.head? = some 'C')

/-- The result dictionary of `PassportOCR.process_image` (`passport_ocr.py`
lines 652-705), with `debug=False`: `errorMsg` models the `error` key,
`data` the spread of the parsed fields, and `validationErrors` the
`validation_errors` key, which is present only when the validator reported at
least one violation.  The `mrz_text` key is attached only to the
parse-failure result (outside debug mode). -/
structure ProcessResult where
  success : Bool
  errorMsg : Option String
  validPassport : Bool
  data : Option ParsedData
  validationErrors : Option (List String)
  mrzText : Option String
deriving Repr, DecidableEq

/-- `PassportOCR.process_image` (`passport_ocr.py` lines 652-705).  The
region locator (`MRZDetector.detect_mrz` over OpenCV) and the text
recognizer (`extract_mrz_text` over PaddleOCR/Tesseract) act on raster images
through external engines, so they enter the model as function parameters
`locate` and `ocr` over abstract image/region types; `extract_mrz_text`
itself cannot turn into a failure result (its internal engine fallback is
caught), so `ocr` is total.  Parsing and validation are the embedded
functions. -/
def process_image {Img Reg : Type} (locate : Img → Option Reg) (ocr : Reg → String)
    (now : PyDateTime) (image : Img) : ProcessResult :=
  match locate image with
  | none =>
    { success := false, errorMsg := some "Could not detect MRZ region in image",
      validPassport := false, data := none, validationErrors := none, mrzText := none }
  | some roi =>
    match parse_mrz (ocr roi) with
    | none =>
      { success := false, errorMsg := some "Could not parse MRZ text",
        validPassport := false, data := none, validationErrors := none,
        mrzText := some (ocr roi) }
    | some parsedData =>
      { success := true, errorMsg := none,
        validPassport := (validate_passport now parsedData).1, data := some parsedData,
        validationErrors :=
          if (validate_passport now parsedData).2.isEmpty then none
          else some (validate_passport now parsedData).2,
        mrzText := none }

/-- A contour bounding box `(x, y, w, h)` as produced by
`cv2.boundingRect`. -/
structure ContourBox where
  x : Nat
  y : Nat
  w : Nat
  h : Nat
deriving Repr, DecidableEq

/-- A rectangular sub-image `image[y:y+h, x:x+w]`. -/
structure MRZRegion where
  x : Nat
  y : Nat
  w : Nat
  h : Nat
deriving Repr, DecidableEq

/-- The geometric candidate filter of `MRZDetector.detect_mrz`
(`passport_ocr.py` lines 117-121): the box starts below the vertical middle,
reaches into the bottom 30%, is at least 40% of the image width, has height
in (15, 0.2·h), and aspect ratio above 4.  The float thresholds 0.7, 0.4 and
0.2 and the ratio test `cw / ch > 4` are modelled as exact rational
comparisons; `int(h * 0.5)` is exactly `h / 2`.  The claims verified here
only concern inputs on which this filter keeps nothing. -/
def candFilter (h w : Nat) (b : ContourBox) : Bool :=
  decide (h / 2 < b.y) && decide (7 * h < 10 * (b.y + b.h)) &&
  decide (4 * w < 10 * b.w) && decide (15 < b.h) && decide (10 * b.h < 2 * h) &&
  decide (4 * b.h < b.w)

/-- Python `max(candidates, key=boundingRect y)`: keeps the first box among
ties, replacing only on a strictly larger `y`. -/
def pickLowest (c : ContourBox) (rest : List ContourBox) : ContourBox :=
  rest.foldl (fun best b => if best.y < b.y then b else best) c

/-- The post-contour logic of `MRZDetector.detect_mrz` (`passport_ocr.py`
lines 97-170) for an image of height `ih` and width `iw`: `None` when
`findContours` found no contours at all; otherwise filter the boxes, fall
back to the bottom 15% band when nothing passes (provided the band is
strictly taller than 40 pixels, with `int(ih * 0.15) = 15 * ih / 100` exactly
for all feasible heights), and otherwise select the lowest candidate and pad
its box.  The morphological pipeline before `findContours` runs through
OpenCV and enters the model as the list of contour boxes it produced. -/
def detect_mrz_post (ih iw : Nat) (contours : List ContourBox) : Option MRZRegion :=
  if contours.isEmpty then none
  else
    match contours.filter (candFilter ih iw) with
    | [] =>
      if 40 < 15 * ih / 100 then some ⟨0, ih - 15 * ih / 100, iw, 15 * ih / 100⟩
      else none
    | c :: rest =>
      let sel := pickLowest c rest
      let x := sel.x - 10
      let y := sel.y - 42
      some ⟨x, y, min (iw - x) (sel.w + 20), min (ih - y) (sel.h + 48)⟩

/-- Line 1 of the spec's TD3 round-trip example (the British specimen). -/
def gbrLine1 : String := "P<GBRJENNINGS<<PAUL<MICHAEL<<<<<<<<<<<<<<<<"

/-- Line 2 of the spec's TD3 round-trip example.  Note it is 45 characters
long, so the code's `[:44]` truncation drops its final character. -/
def gbrLine2 : String := "0123456784GBR8411025M08100504<<<<<<<<<<<<<<02"

/-- Line 2 for the C10 witness: columns 28-41 are all fillers (empty personal
number) while column 42 holds the digit `7`, which is not the check digit of
the all-filler field. -/
def c10Line2 : String := "0123456784GBR8411025M0810050<<<<<<<<<<<<<<70"

/-- The record parsed from `[gbrLine1, c10Line2]`. -/
def c10Record : ParsedData := {
  documentType := 'P'
  issuingCountry := "GBR"
  surname := "JENNINGS"
  givenNames := "PAUL MICHAEL"
  passportNumber := "012345678"
  nationality := "GBR"
  dateOfBirth := some "1984-11-02"
  sex := 'M'
  dateOfExpiry := some "2008-10-05"
  personalNumber := ""
  checkDigits := {
    passportNumber := true
    dateOfBirth := false
    dateOfExpiry := true
    personalNumber := true
    composite := true }
  validMrzChecksum := false }

/-- The boundary line for C5: 40 characters of which exactly 36 (90%) are
alphanumeric-or-filler, starting with `P` and containing fillers. -/
def boundaryLine : String := "P<<<<<AAAAAAAAAAAAAAAAAAAAAAAAAAAAAA...."

/-- The validation time used by the C4 witness. -/
def c4Now : PyDateTime := ⟨2026, 10, 12, 1⟩

/-- The record used for the C7 counterexample and witness: structurally valid
with all check digits passing, expiring on 2024-06-15. -/
def c7Record : ParsedData := {
  documentType := 'P'
  issuingCountry := "GBR"
  surname := "SMITH"
  givenNames := "JOHN"
  passportNumber := "123456789"
  nationality := "GBR"
  dateOfBirth := some "1985-01-15"
  sex := 'M'
  dateOfExpiry := some "2024-06-15"
  personalNumber := ""
  checkDigits := {
    passportNumber := true
    dateOfBirth := true
    dateOfExpiry := true
    personalNumber := true
    composite := true }
  validMrzChecksum := true }

/-- Midday of the expiry day of `c7Record`: the current date equals the
expiry date, but the time of day is past midnight. -/
def c7NowMidday : PyDateTime := ⟨2024, 6, 15, 43200⟩

/-- The locator stage for the C3 witness: it finds a region in the (trivial)
image. -/
def c3Locate : Unit → Option Unit := fun _ => some ()

/-- The recognizer stage for the C3 witness: it reads the example TD3 pair. -/
def c3Ocr : Unit → String := fun _ => gbrLine1 ++ "\n" ++ gbrLine2

/-- The validation time for the C3 witness. -/
def c3Now : PyDateTime := ⟨2026, 1, 1, 0⟩

/-- The record decoded by `parse_mrz` from the C3 witness text. -/
def c3Record : ParsedData := {
  documentType := 'P'
  issuingCountry := "GBR"
  surname := "JENNINGS"
  givenNames := "PAUL MICHAEL"
  passportNumber := "012345678"
  nationality := "GBR"
  dateOfBirth := some "1984-11-02"
  sex := 'M'
  dateOfExpiry := some "2008-10-05"
  personalNumber := "4"
  checkDigits := {
    passportNumber := true
    dateOfBirth := false
    dateOfExpiry := true
    personalNumber := false
    composite := false }
  validMrzChecksum := false }

/-- A contour box that fails the geometric filter in a 400 by 300 image. -/
def c9Box : ContourBox := ⟨0, 0, 1, 1⟩

lemma foldl_checksum_eq_sum (l : List (Nat × Char)) (acc : Nat) :
    List.foldl (fun total ic => total + checkDigitValue ic.2 * mrzWeights.getD (ic.1 % 3) 0) acc l
      = acc + (l.map (fun ic => checkDigitValue ic.2 * mrzWeights.getD (ic.1 % 3) 0)).sum := by
  induction l generalizing acc with
  | nil => simp
  | cons x xs ih =>
    rw [List.foldl_cons, ih, List.map_cons, List.sum_cons, Nat.add_assoc]

lemma snd_mem_of_mem_enumFrom {α : Type} (l : List α) (n : Nat) (p : Nat × α)
    (h : p ∈ l.enumFrom n) : p.2 ∈ l := by
  induction l generalizing n with
  | nil => simp [List.enumFrom] at h
  | cons x xs ih =>
    simp only [List.enumFrom, List.mem_cons] at h
    rcases h with h | h
    · simp [h]
    · exact List.mem_cons_of_mem _ (ih _ h)

lemma checkDigitValue_eq_specCharValue (c : Char) (hc : c ∈ mrzAlphabet) :
    checkDigitValue c = specCharValue c := by
  have h : ∀ d ∈ mrzAlphabet, checkDigitValue d = specCharValue d := by decide
  exact h c hc

lemma str_data_append (a b : String) : (a ++ b).data = a.data ++ b.data := by
  cases a; cases b; rfl

lemma isCrit_append_false (pre x : String) (c : Char) (l : List Char)
    (hpre : pre.data = c :: l) (hc : c ≠ 'C') :
    isCriticalChecksumMsg (pre ++ x) = false := by
  unfold isCriticalChecksumMsg
  rw [str_data_append, hpre, List.cons_append]
  exact decide_eq_false (by simp [hc])

lemma isCrit_append_true (pre x : String) (l : List Char)
    (hpre : pre.data = 'C' :: l) :
    isCriticalChecksumMsg (pre ++ x) = true := by
  unfold isCriticalChecksumMsg
  rw [str_data_append, hpre, List.cons_append]
  exact decide_eq_true rfl

lemma ne_append_of_head (pre x t : String) (c : Char) (l : List Char)
    (hpre : pre.data = c :: l) (hc : t.data.head? ≠ some c) :
    pre ++ x ≠ t := by
  intro h
  apply hc
  rw [← h, str_data_append, hpre, List.cons_append]
  rfl

lemma countP_zero_of_false (p : String → Bool) (m : String) (hm : p m = false)
    (c : Prop) [Decidable c] : (if c then [m] else []).countP p = 0 := by
  split <;> simp [hm]

lemma not_mem_ite_singleton (t m : String) (hne : t ≠ m) (c : Prop) [Decidable c] :
    t ∉ (if c then [m] else []) := by
  split <;> simp [hne]

lemma crit_count_docType (d : ParsedData) :
    (docTypeErrors d).countP isCriticalChecksumMsg = 0 := by
  unfold docTypeErrors
  split
  · rfl
  · simp [isCrit_append_false "Invalid document type: " _ 'I' _ rfl (by decide)]

lemma crit_count_country (d : ParsedData) :
    (countryErrors d).countP isCriticalChecksumMsg = 0 := by
  unfold countryErrors
  rw [List.countP_append,
    countP_zero_of_false _ _ (isCrit_append_false "Invalid issuing country code: " _ 'I' _ rfl
      (by decide)) _,
    countP_zero_of_false _ _ (isCrit_append_false "Invalid nationality code: " _ 'I' _ rfl
      (by decide)) _]

lemma crit_count_checksum (cd : CheckDigits) :
    (checksumErrors cd).countP isCriticalChecksumMsg =
      if cd.passportNumber && cd.dateOfBirth && cd.dateOfExpiry then 0 else 1 := by
  have htrue : ∀ x : String,
      isCriticalChecksumMsg ("Critical MRZ checksum validation failed: " ++ x) = true :=
    fun x => isCrit_append_true _ x _ rfl
  rcases cd with ⟨p, b, e, pn, cm⟩
  cases p <;> cases b <;> cases e <;>
    simp [checksumErrors, checksumFailedNames, htrue]

lemma crit_count_dob (now : PyDateTime) (dob : Option String) :
    (dobErrors now dob).countP isCriticalChecksumMsg = 0 := by
  have h1 : isCriticalChecksumMsg "Date of birth is in the future" = false := by decide
  have h2 : isCriticalChecksumMsg "Date of birth is too far in the past" = false := by decide
  have h3 : isCriticalChecksumMsg "Missing date of birth" = false := by decide
  unfold dobErrors
  dsimp only
  split
  · rcases hp : parseIsoDate (dob.getD "") with _ | ⟨y, m, dd⟩
    · dsimp only
      simp [isCrit_append_false "Invalid date of birth format: " _ 'I' _ rfl (by decide)]
    · dsimp only
      rw [List.countP_append, countP_zero_of_false _ _ h1 _, countP_zero_of_false _ _ h2 _]
  · simp [h3]

lemma crit_count_expiry (now : PyDateTime) (x : Option String) :
    (expiryErrors now x).countP isCriticalChecksumMsg = 0 := by
  have h1 : isCriticalChecksumMsg "Passport has expired" = false := by decide
  have h2 : isCriticalChecksumMsg "Missing expiry date" = false := by decide
  unfold expiryErrors
  dsimp only
  split
  · rcases hp : parseIsoDate (x.getD "") with _ | ⟨y, m, dd⟩
    · dsimp only
      simp [isCrit_append_false "Invalid expiry date format: " _ 'I' _ rfl (by decide)]
    · dsimp only
      exact countP_zero_of_false _ _ h1 _
  · simp [h2]

lemma crit_count_required (d : ParsedData) :
    (requiredErrors d).countP isCriticalChecksumMsg = 0 := by
  have h1 : isCriticalChecksumMsg "Missing required field: surname" = false := by decide
  have h2 : isCriticalChecksumMsg "Missing required field: passport_number" = false := by decide
  unfold requiredErrors
  rw [List.countP_append, countP_zero_of_false _ _ h1 _, countP_zero_of_false _ _ h2 _]

lemma checksumFailedNames_ne_nil (cd : CheckDigits)
    (h : (cd.passportNumber && cd.dateOfBirth && cd.dateOfExpiry) = false) :
    checksumFailedNames cd ≠ [] := by
  rcases cd with ⟨p, b, e, pn, cm⟩
  cases p <;> cases b <;> cases e <;> simp_all [checksumFailedNames]

lemma expired_not_mem_docType (d : ParsedData) :
    "Passport has expired" ∉ docTypeErrors d := by
  unfold docTypeErrors
  split
  · simp
  · intro hm
    exact (ne_append_of_head "Invalid document type: " _ "Passport has expired" 'I' _ rfl
      (by decide)) (List.mem_singleton.mp hm).symm

lemma expired_not_mem_country (d : ParsedData) :
    "Passport has expired" ∉ countryErrors d := by
  unfold countryErrors
  intro hm
  rcases List.mem_append.mp hm with hm | hm
  · exact not_mem_ite_singleton _ _
      (Ne.symm (ne_append_of_head "Invalid issuing country code: " _ "Passport has expired"
        'I' _ rfl (by decide))) _ hm
  · exact not_mem_ite_singleton _ _
      (Ne.symm (ne_append_of_head "Invalid nationality code: " _ "Passport has expired"
        'I' _ rfl (by decide))) _ hm

lemma expired_not_mem_checksum (cd : CheckDigits) :
    "Passport has expired" ∉ checksumErrors cd := by
  unfold checksumErrors
  split
  · intro hm
    exact (ne_append_of_head "Critical MRZ checksum validation failed: " _
      "Passport has expired" 'C' _ rfl (by decide)) (List.mem_singleton.mp hm).symm
  · simp

lemma expired_not_mem_dob (now : PyDateTime) (dob : Option String) :
    "Passport has expired" ∉ dobErrors now dob := by
  unfold dobErrors
  dsimp only
  split
  · rcases hp : parseIsoDate (dob.getD "") with _ | ⟨y, m, dd⟩
    · dsimp only
      intro hm
      exact (ne_append_of_head "Invalid date of birth format: " _ "Passport has expired"
        'I' _ rfl (by decide)) (List.mem_singleton.mp hm).symm
    · dsimp only
      intro hm
      rcases List.mem_append.mp hm with hm | hm
      · exact not_mem_ite_singleton _ _ (by decide) _ hm
      · exact not_mem_ite_singleton _ _ (by decide) _ hm
  · simp

lemma expired_not_mem_required (d : ParsedData) :
    "Passport has expired" ∉ requiredErrors d := by
  unfold requiredErrors
  intro hm
  rcases List.mem_append.mp hm with hm | hm
  · exact not_mem_ite_singleton _ _ (by decide) _ hm
  · exact not_mem_ite_singleton _ _ (by decide) _ hm

end PassportOCR

open PassportOCR

/-- C1.  `MRZParser.calculate_check_digit` on any string over the MRZ alphabet
(upper-case letters, digits, filler) equals the ICAO 9303 formula of the spec:
the sum over positions of value(c)·weight(i mod 3) mod 10, with weights
`[7,3,1]`, value(filler)=0, value(digit)=digit, value(letter)=10+rank.
Determinism is inherent: `calculate_check_digit` is a pure function of its
argument. -/
theorem checksum_matches_icao_formula (s : String)
    (h : ∀ c ∈ s.toList, c ∈ mrzAlphabet) :
    calculate_check_digit s = specChecksum s := by
  unfold calculate_check_digit specChecksum
  rw [foldl_checksum_eq_sum]
  simp only [Nat.zero_add]
  congr 1
  refine congrArg List.sum (List.map_congr_left ?_)
  intro p hp
  have hmem : p.2 ∈ s.toList := snd_mem_of_mem_enumFrom _ 0 p hp
  rw [checkDigitValue_eq_specCharValue p.2 (h p.2 hmem)]

/-- Witness for C1: the alphabet hypothesis holds for the concrete string
`AB2134<<<`, and the theorem applies there. -/
theorem checksum_matches_icao_formula_witness :
    (∀ c ∈ ("AB2134<<<" : String).toList, c ∈ mrzAlphabet) ∧
      calculate_check_digit "AB2134<<<" = specChecksum "AB2134<<<" :=
  ⟨by decide, checksum_matches_icao_formula "AB2134<<<" (by decide)⟩

/-- Counterexample for C8: the spec's example values fail on the code; in
particular the check digit of `780131` computed by `calculate_check_digit` is
0, not 7 (7·7+8·3+0·1+1·7+3·3+1·1 = 90). -/
theorem checksum_examples_counterexample :
    ¬ (calculate_check_digit "AB2134<<<" = 5 ∧ calculate_check_digit "780131" = 7 ∧
       calculate_check_digit "L898902C<" = 3 ∧ calculate_check_digit "690806" = 6 ∧
       calculate_check_digit "940623" = 1 ∧ calculate_check_digit "ZE184226<" = 1) := by
  decide

/-- C8 amended.  The check-digit function's actual values on the spec's six
example strings: `AB2134<<<` and `L898902C<` are as the spec says (5 and 3),
while `780131` gives 0, `690806` gives 1, `940623` gives 6 and `ZE184226<`
gives 0 (the values 1 for `690806` and 6 for `940623` in the ICAO specimen are
swapped in the spec, and 7 resp. 1 for the other two do not match the weighted
sum at all). -/
theorem checksum_examples_actual :
    calculate_check_digit "AB2134<<<" = 5 ∧ calculate_check_digit "780131" = 0 ∧
      calculate_check_digit "L898902C<" = 3 ∧ calculate_check_digit "690806" = 1 ∧
      calculate_check_digit "940623" = 6 ∧ calculate_check_digit "ZE184226<" = 0 := by
  decide

/-- C6.  `MRZParser.parse_date` on every 6-character input: it succeeds
exactly when the input is all digits and the (century-adjusted year, month,
day) triple is a calendar-valid date, in which case it returns the ISO string
of that date with century 2000+YY for YY<50 and 1900+YY otherwise; any
non-digit or calendar-invalid input yields `none`.  The spec's concrete
examples are included. -/
theorem parse_date_characterization (s : String) (h : s.length = 6) :
    (parse_date s =
      if pyStrIsDigit s ∧ validDate (mrzCentury s) (mrzMonth s) (mrzDay s) then
        some (pad4 (mrzCentury s) ++ "-" ++ pad2 (mrzMonth s) ++ "-" ++ pad2 (mrzDay s))
      else none) ∧
    parse_date "840102" = some "1984-01-02" ∧
    parse_date "201231" = some "2020-12-31" ∧
    parse_date "000101" = some "2000-01-01" ∧
    parse_date "991340" = none ∧
    parse_date "990230" = none ∧
    parse_date "abc123" = none := by
  refine ⟨?_, by decide, by decide, by decide, by decide, by decide, by decide⟩
  unfold parse_date
  rcases Decidable.em (pyStrIsDigit s = true) with hd | hd
  · simp [h, hd]
  · simp [h, hd]

/-- Witness for C6: the length hypothesis holds for `840102`, where the
theorem yields the concrete parse `1984-01-02`. -/
theorem parse_date_characterization_witness :
    ("840102" : String).length = 6 ∧ parse_date "840102" = some "1984-01-02" :=
  ⟨by decide, (parse_date_characterization "840102" (by decide)).2.1⟩

/-- Counterexample for C2: decoding the spec's example pair does not yield
passport number `0123456784`: that value appends the check-digit column 9 to
the nine-character passport-number field of columns 0-8, contradicting the
spec's own TD3 layout (the repository's test `test_parse_td3_mrz_valid`
asserts the same ten-character value and fails against the code). -/
theorem td3_gbr_passport_number_counterexample :
    (parse_td3_mrz [gbrLine1, gbrLine2]).map ParsedData.passportNumber ≠
      some "0123456784" := by
  decide

/-- C2 amended.  Full evaluation of `parse_td3_mrz` on the spec's example
pair: every claimed field matches except the passport number, which the code
extracts from columns 0-8 only, yielding `012345678`. -/
theorem td3_gbr_example_fields :
    parse_td3_mrz [gbrLine1, gbrLine2] = some {
      documentType := 'P'
      issuingCountry := "GBR"
      surname := "JENNINGS"
      givenNames := "PAUL MICHAEL"
      passportNumber := "012345678"
      nationality := "GBR"
      dateOfBirth := some "1984-11-02"
      sex := 'M'
      dateOfExpiry := some "2008-10-05"
      personalNumber := "4"
      checkDigits := {
        passportNumber := true
        dateOfBirth := false
        dateOfExpiry := true
        personalNumber := false
        composite := false }
      validMrzChecksum := false } := by
  decide

/-- C10.  If `parse_td3_mrz` succeeds and the stripped personal-number field
is empty, the `personal_number` entry of the check map is `true`: the check
digit in column 42 is neither computed nor compared
(`passport_ocr.py` line 341). -/
theorem personal_check_skipped (lines : List String) (r : ParsedData)
    (hp : parse_td3_mrz lines = some r) (he : r.personalNumber = "") :
    r.checkDigits.personalNumber = true := by
  rcases lines with _ | ⟨l1, lines⟩
  · exact absurd hp (by simp [parse_td3_mrz])
  rcases lines with _ | ⟨l2, rest⟩
  · exact absurd hp (by simp [parse_td3_mrz])
  unfold parse_td3_mrz at hp
  dsimp only at hp
  split at hp
  · exact absurd hp (by simp)
  · rw [Option.some.injEq] at hp
    subst hp
    dsimp only at he ⊢
    rw [if_neg (by simp only [ne_eq, not_not]; exact he)]

/-- Witness for C10: a concrete TD3 pair with empty personal number parses to
`c10Record`, whose personal-number check is `true` even though column 42
holds a digit that does not verify. -/
theorem personal_check_skipped_witness :
    parse_td3_mrz [gbrLine1, c10Line2] = some c10Record ∧
      c10Record.personalNumber = "" ∧ c10Record.checkDigits.personalNumber = true :=
  ⟨by decide, by decide,
    personal_check_skipped [gbrLine1, c10Line2] c10Record (by decide) (by decide)⟩

/-- Counterexample for C5: the claim's keep-condition uses "at least 90%"
(`9·len ≤ 10·valid`), but the code requires strictly more than 90%
(`valid_chars / len > 0.9`), so the stated equivalence fails on a 40-character
line with exactly 36 valid characters. -/
theorem mrz_line_filter_counterexample :
    ¬ (isMRZLine boundaryLine = true ↔
        (35 ≤ boundaryLine.length ∧ boundaryLine.length ≤ 50 ∧
         9 * boundaryLine.length ≤ 10 * mrzValidCount boundaryLine ∧
         '<' ∈ boundaryLine.toList ∧
         (startsWithDocType boundaryLine = true ∨ 5 ≤ fillerCount boundaryLine))) := by
  decide

/-- C5 amended.  A normalized (hence space-free) line is kept iff its length
is 35-50, strictly more than 90% of its characters are alphanumeric or the
filler, it contains the filler, and it starts with a document-type letter or
has at least 5 fillers; moreover decoding fails whenever fewer than two lines
qualify, and in particular when every cleaned line is shorter than 35
characters. -/
theorem mrz_line_filter_amended :
    (∀ line : String, ' ' ∉ line.toList →
      (isMRZLine line = true ↔
        (35 ≤ line.length ∧ line.length ≤ 50 ∧
         9 * line.length < 10 * mrzValidCount line ∧
         '<' ∈ line.toList ∧
         (startsWithDocType line = true ∨ 5 ≤ fillerCount line)))) ∧
    (∀ text : String, ((cleanMRZLines text).filter isMRZLine).length < 2 →
      parse_mrz text = none) ∧
    (∀ text : String, (∀ l ∈ cleanMRZLines text, l.length < 35) →
      parse_mrz text = none) := by
  have hfewer : ∀ text : String, ((cleanMRZLines text).filter isMRZLine).length < 2 →
      parse_mrz text = none := by
    intro text h
    unfold parse_mrz
    rcases hls : (cleanMRZLines text).filter isMRZLine with _ | ⟨a, _ | ⟨b, t⟩⟩
    · simp
    · simp [parse_td3_mrz]
    · rw [hls] at h; simp only [List.length_cons] at h; omega
  refine ⟨?_, hfewer, ?_⟩
  · intro line h
    have hb : line.toList.contains ' ' = false := by
      cases hc : line.toList.contains ' ' with
      | false => rfl
      | true => exact absurd (List.elem_iff.mp hc) h
    simp only [isMRZLine, hb, Bool.not_false, Bool.true_and, Bool.and_eq_true,
      Bool.or_eq_true, decide_eq_true_eq, List.contains, List.elem_iff]
    tauto
  · intro text h
    apply hfewer
    have hnil : (cleanMRZLines text).filter isMRZLine = [] := by
      apply List.filter_eq_nil_iff.mpr
      intro a ha
      have hlen := h a ha
      simp only [isMRZLine, Bool.and_eq_true, Bool.not_eq_true', Bool.or_eq_true,
        decide_eq_true_eq, Bool.not_eq_true]
      intro hcontr
      have h35 : 35 ≤ a.length := by tauto
      omega
    simp [hnil]

/-- Witness for C5: the no-space hypothesis holds for the example line 1,
which the filter keeps, as the amended equivalence predicts. -/
theorem mrz_line_filter_amended_witness :
    ' ' ∉ gbrLine1.toList ∧ isMRZLine gbrLine1 = true :=
  ⟨by decide, (mrz_line_filter_amended.1 gbrLine1 (by decide)).mpr (by decide)⟩

/-- C4.  For every record and validation time, the number of
critical-checksum violations in the validator's output is 0 when all three
critical checks (passport number, date of birth, expiry) hold and exactly 1
otherwise — independent of the personal-number and composite check results,
which appear nowhere in the condition; and in the failing case the single
violation is the message naming the failing fields in order. -/
theorem checksum_rule_critical_only (now : PyDateTime) (d : ParsedData) :
    ((validate_passport now d).2.countP isCriticalChecksumMsg =
      if d.checkDigits.passportNumber && d.checkDigits.dateOfBirth &&
          d.checkDigits.dateOfExpiry then 0 else 1) ∧
    ((d.checkDigits.passportNumber && d.checkDigits.dateOfBirth &&
        d.checkDigits.dateOfExpiry) = false →
      ("Critical MRZ checksum validation failed: " ++
        String.intercalate ", " (checksumFailedNames d.checkDigits)) ∈
          (validate_passport now d).2) := by
  constructor
  · show (docTypeErrors d ++ countryErrors d ++ checksumErrors d.checkDigits ++
      dobErrors now d.dateOfBirth ++ expiryErrors now d.dateOfExpiry ++
      requiredErrors d).countP isCriticalChecksumMsg = _
    rw [List.countP_append, List.countP_append, List.countP_append, List.countP_append,
      List.countP_append, crit_count_docType, crit_count_country, crit_count_checksum,
      crit_count_dob, crit_count_expiry, crit_count_required]
    omega
  · intro h3
    show _ ∈ docTypeErrors d ++ countryErrors d ++ checksumErrors d.checkDigits ++
      dobErrors now d.dateOfBirth ++ expiryErrors now d.dateOfExpiry ++ requiredErrors d
    have hmem : ("Critical MRZ checksum validation failed: " ++
        String.intercalate ", " (checksumFailedNames d.checkDigits)) ∈
          checksumErrors d.checkDigits := by
      unfold checksumErrors
      rw [if_pos (checksumFailedNames_ne_nil d.checkDigits h3)]
      exact List.mem_singleton.mpr rfl
    simp only [List.mem_append]
    exact Or.inl (Or.inl (Or.inl (Or.inr hmem)))

/-- Witness for C4: on the concrete record `c10Record` (whose date-of-birth
check is false while personal-number and composite are true and false
respectively), validation at a concrete time appends exactly one
critical-checksum violation, naming `date_of_birth`. -/
theorem checksum_rule_critical_only_witness :
    (validate_passport c4Now c10Record).2.countP isCriticalChecksumMsg = 1 ∧
      "Critical MRZ checksum validation failed: date_of_birth" ∈
        (validate_passport c4Now c10Record).2 := by
  constructor
  · have h1 := (checksum_rule_critical_only c4Now c10Record).1
    simpa [c10Record] using h1
  · have h2 := (checksum_rule_critical_only c4Now c10Record).2 (by decide)
    have heq : ("Critical MRZ checksum validation failed: " ++
        String.intercalate ", " (checksumFailedNames c10Record.checkDigits)) =
          "Critical MRZ checksum validation failed: date_of_birth" := by decide
    rwa [heq] at h2

/-- Counterexample for C7: validating `c7Record` at midday of its expiry day
appends the "expired" violation even though the expiry date is not earlier
than the current date (the two dates are equal, as the second conjunct
records), because the code compares the midnight expiry datetime against
`datetime.now()`, which carries the current time of day. -/
theorem expiry_rule_counterexample :
    "Passport has expired" ∈ (validate_passport c7NowMidday c7Record).2 ∧
      dtLt ⟨2024, 6, 15, 0⟩ ⟨2024, 6, 15, 0⟩ = false :=
  ⟨by decide, by decide⟩

/-- C7 amended.  For every record with a present, parseable expiry date, the
validator appends the "expired" violation exactly when the expiry datetime
(at midnight) is earlier than the current `datetime.now()` value: yesterday's
expiry is flagged, tomorrow's is not, and today's is flagged whenever the
current time is past midnight. -/
theorem expiry_rule_amended (now : PyDateTime) (d : ParsedData) (s : String)
    (y m dd : Nat) (hs : d.dateOfExpiry = some s)
    (hp : parseIsoDate s = some (y, m, dd)) :
    ("Passport has expired" ∈ (validate_passport now d).2 ↔
      dtLt ⟨y, m, dd, 0⟩ now = true) := by
  have hsne : s ≠ "" := by
    intro h
    rw [h] at hp
    simp [parseIsoDate] at hp
  have hexp : expiryErrors now d.dateOfExpiry =
      if dtLt ⟨y, m, dd, 0⟩ now then ["Passport has expired"] else [] := by
    unfold expiryErrors
    rw [hs]
    dsimp only [Option.getD]
    rw [if_pos hsne, hp]
  show "Passport has expired" ∈ docTypeErrors d ++ countryErrors d ++
    checksumErrors d.checkDigits ++ dobErrors now d.dateOfBirth ++
    expiryErrors now d.dateOfExpiry ++ requiredErrors d ↔ _
  constructor
  · intro hmem
    rcases List.mem_append.mp hmem with hmem | hmem
    swap
    · exact absurd hmem (expired_not_mem_required d)
    rcases List.mem_append.mp hmem with hmem | hmem
    swap
    · rw [hexp] at hmem
      rcases Decidable.em (dtLt ⟨y, m, dd, 0⟩ now = true) with hlt | hlt
      · exact hlt
      · rw [if_neg hlt] at hmem
        simp at hmem
    rcases List.mem_append.mp hmem with hmem | hmem
    swap
    · exact absurd hmem (expired_not_mem_dob now d.dateOfBirth)
    rcases List.mem_append.mp hmem with hmem | hmem
    swap
    · exact absurd hmem (expired_not_mem_checksum d.checkDigits)
    rcases List.mem_append.mp hmem with hmem | hmem
    · exact absurd hmem (expired_not_mem_docType d)
    · exact absurd hmem (expired_not_mem_country d)
  · intro hlt
    refine List.mem_append.mpr (Or.inl (List.mem_append.mpr (Or.inr ?_)))
    rw [hexp, if_pos hlt]
    exact List.mem_singleton.mpr rfl

/-- Witness for C7: the hypotheses hold for `c7Record` at `c7NowMidday`, and
the theorem's equivalence applies there. -/
theorem expiry_rule_amended_witness :
    c7Record.dateOfExpiry = some "2024-06-15" ∧
      parseIsoDate "2024-06-15" = some (2024, 6, 15) ∧
      ("Passport has expired" ∈ (validate_passport c7NowMidday c7Record).2 ↔
        dtLt ⟨2024, 6, 15, 0⟩ c7NowMidday = true) :=
  ⟨rfl, by decide,
    expiry_rule_amended c7NowMidday c7Record "2024-06-15" 2024 6 15 rfl (by decide)⟩

/-- C3.  Whenever region location and decoding succeed (text recognition
cannot itself turn the result into a failure), `process_image` returns a
success result: the success flag is true, no stage-failure message is
attached, the decoded record is carried, the overall validity flag equals
the validator's verdict (which is true exactly when the violation list is
empty), and the ordered violation list is attached whenever it is non-empty —
a validation failure never produces a stage failure. -/
theorem process_success_despite_violations {Img Reg : Type} (locate : Img → Option Reg)
    (ocr : Reg → String) (now : PyDateTime) (image : Img) (roi : Reg) (d : ParsedData)
    (hl : locate image = some roi) (hp : parse_mrz (ocr roi) = some d) :
    (process_image locate ocr now image).success = true ∧
    (process_image locate ocr now image).errorMsg = none ∧
    (process_image locate ocr now image).data = some d ∧
    (process_image locate ocr now image).validPassport = (validate_passport now d).1 ∧
    ((validate_passport now d).1 = true ↔ (validate_passport now d).2 = []) ∧
    (process_image locate ocr now image).validationErrors =
      (if (validate_passport now d).2.isEmpty then none
       else some (validate_passport now d).2) := by
  have hres : process_image locate ocr now image =
      { success := true, errorMsg := none,
        validPassport := (validate_passport now d).1, data := some d,
        validationErrors :=
          if (validate_passport now d).2.isEmpty then none
          else some (validate_passport now d).2,
        mrzText := none } := by
    unfold process_image
    rw [hl]
    dsimp only
    rw [hp]
  refine ⟨by rw [hres], by rw [hres], by rw [hres], by rw [hres], ?_, by rw [hres]⟩
  show (validate_passport now d).1 = true ↔ (validate_passport now d).2 = []
  unfold validate_passport
  exact ⟨fun h => List.isEmpty_iff.mp h, fun h => List.isEmpty_iff.mpr h⟩

/-- Witness for C3: both hypotheses hold for the concrete stages, and the
pipeline result is a success carrying the record even though this record
fails validation (its date-of-birth checksum is false). -/
theorem process_success_despite_violations_witness :
    c3Locate () = some () ∧ parse_mrz (c3Ocr ()) = some c3Record ∧
      (process_image c3Locate c3Ocr c3Now ()).success = true ∧
      (process_image c3Locate c3Ocr c3Now ()).errorMsg = none := by
  have h := process_success_despite_violations c3Locate c3Ocr c3Now () () c3Record
    rfl (by decide)
  exact ⟨rfl, by decide, h.1, h.2.1⟩

/-- Counterexample for C9: an image 400 pixels tall and 300 wide on which
`findContours` produced no contours at all vacuously has no contour passing
the geometric filter, and its bottom 15% band is 60 pixels tall (more than
40), yet `detect_mrz_post` returns `None`: the code exits before the fallback
when the contour list is empty (`passport_ocr.py` lines 99-100). -/
theorem region_fallback_counterexample :
    detect_mrz_post 400 300 ([] : List ContourBox) = none ∧ 40 < 15 * 400 / 100 :=
  ⟨by decide, by decide⟩

/-- C9 amended.  Provided at least one contour exists, if no contour passes
the geometric filter the locator returns the bottom 15% band
`image[ih - 15·ih/100 .. ih, 0 .. iw]` exactly when that band is strictly
taller than 40 pixels — equivalently when the image height is at least 274
(instantiating the spec's approximate thresholds of ~40 and ~267) — and the
band is then non-empty; any smaller image yields `None`. -/
theorem region_fallback_amended (ih iw : Nat) (contours : List ContourBox)
    (hne : contours ≠ []) (hfail : contours.filter (candFilter ih iw) = [])
    (hw : 0 < iw) :
    (274 ≤ ih →
      detect_mrz_post ih iw contours =
        some ⟨0, ih - 15 * ih / 100, iw, 15 * ih / 100⟩ ∧
      0 < 15 * ih / 100 ∧ 0 < iw) ∧
    (ih < 274 → detect_mrz_post ih iw contours = none) := by
  have hni : contours.isEmpty = false := by
    cases contours
    · exact absurd rfl hne
    · rfl
  have hmain : detect_mrz_post ih iw contours =
      if 40 < 15 * ih / 100 then some ⟨0, ih - 15 * ih / 100, iw, 15 * ih / 100⟩
      else none := by
    unfold detect_mrz_post
    rw [hni, hfail]
    rfl
  constructor
  · intro h274
    have hbh : 40 < 15 * ih / 100 := by omega
    exact ⟨by rw [hmain, if_pos hbh], by omega, hw⟩
  · intro hlt
    have hbh : ¬ 40 < 15 * ih / 100 := by omega
    rw [hmain, if_neg hbh]

/-- Witness for C9: the hypotheses hold for a 400 by 300 image with one
failing contour, where the fallback returns the 60-pixel bottom band. -/
theorem region_fallback_amended_witness :
    ([c9Box] : List ContourBox) ≠ [] ∧
      [c9Box].filter (candFilter 400 300) = [] ∧
      detect_mrz_post 400 300 [c9Box] = some ⟨0, 340, 300, 60⟩ := by
  refine ⟨by decide, by decide, ?_⟩
  have h := ((region_fallback_amended 400 300 [c9Box] (by decide) (by decide)
    (by decide)).1 (by omega)).1
  simpa using h
